import Mathlib

/-!
# Verification of the Intelbras Twibi router integration

A shallow embedding, in Lean 4, of the core of the
`intelbras_twibi_router` integration: the connection/authentication
engine (`api/connection.py`), the data fetch/normalize pipeline
(`api/data_fetcher.py`, `api/models.py`), the command controller
(`api/controller.py`), and the polling coordinator (`coordinator_v2.py`),
together with theorems about their behaviour.

Python dicts are embedded as association lists (`List (String × α)`)
with insertion-order preserving, in-place-overwriting insertion, which
matches CPython dict semantics for the dict sizes this program builds.
-/

set_option maxRecDepth 10000

/-! ## Association-list model of Python dicts -/

/-- `d[k] = v` for a Python dict: overwrite in place if the key exists,
append at the end otherwise (CPython insertion-order semantics). -/
def pyDictInsert {α : Type} : List (String × α) → String → α → List (String × α)
  | [], k, v => [(k, v)]
  | p :: rest, k, v => if p.1 == k then (k, v) :: rest else p :: pyDictInsert rest k v

/-- `d.get(k)` for a Python dict: the value at the first matching key. -/
def pyLookup {α : Type} : List (String × α) → String → Option α
  | [], _ => none
  | p :: rest, k => if p.1 == k then some p.2 else pyLookup rest k

/-- `d.get(k, default)` for a Python dict of strings. -/
def pyGet (d : List (String × String)) (k : String) (default : String) : String :=
  match pyLookup d k with
  | some v => v
  | none => default

/-- The keys of an association list are pairwise distinct (true of every
list built from `[]` by `pyDictInsert`, as Python dicts are). -/
def keysNodup {α : Type} (d : List (String × α)) : Prop :=
  (d.map Prod.fst).Nodup

theorem pyLookup_insert_self {α : Type} (d : List (String × α)) (k : String) (v : α) :
    pyLookup (pyDictInsert d k v) k = some v := by
  induction d with
  | nil => simp [pyDictInsert, pyLookup]
  | cons p rest ih =>
    by_cases h : p.1 = k
    · simp [pyDictInsert, h, pyLookup]
    · simp only [pyDictInsert, pyLookup, beq_iff_eq, h, if_false]
      exact ih

theorem pyLookup_insert_ne {α : Type} (d : List (String × α)) (k k' : String) (v : α)
    (hne : k' ≠ k) : pyLookup (pyDictInsert d k v) k' = pyLookup d k' := by
  induction d with
  | nil => simp [pyDictInsert, pyLookup, beq_iff_eq, Ne.symm hne]
  | cons p rest ih =>
    by_cases h : p.1 = k
    · subst h
      by_cases h' : p.1 = k'
      · exact absurd h'.symm hne
      · simp [pyDictInsert, pyLookup, beq_iff_eq, h', hne]
    · by_cases h' : p.1 = k'
      · simp [pyDictInsert, pyLookup, beq_iff_eq, h, h', hne]
      · simp only [pyDictInsert, beq_iff_eq, h, if_false, pyLookup, h']
        simpa [h'] using ih

theorem mem_keys_of_pyDictInsert {α : Type} (d : List (String × α)) (k a : String) (v : α)
    (ha : a ∈ (pyDictInsert d k v).map Prod.fst) : a ∈ d.map Prod.fst ∨ a = k := by
  induction d with
  | nil => simpa [pyDictInsert] using ha
  | cons p rest ih =>
    by_cases h : p.1 = k
    · simp only [pyDictInsert, beq_iff_eq, h, if_true, List.map_cons, List.mem_cons] at ha
      rcases ha with ha | ha
      · right; exact ha
      · left; simp [List.mem_cons, ha]
    · simp only [pyDictInsert, beq_iff_eq, h, if_false, List.map_cons, List.mem_cons] at ha
      rcases ha with ha | ha
      · left; simp [List.mem_cons, ha]
      · rcases ih ha with h' | h'
        · left; simp [List.mem_cons, h']
        · right; exact h'

theorem keysNodup_pyDictInsert {α : Type} (d : List (String × α)) (k : String) (v : α)
    (hd : keysNodup d) : keysNodup (pyDictInsert d k v) := by
  induction d with
  | nil => simp [keysNodup, pyDictInsert]
  | cons p rest ih =>
    simp only [keysNodup, List.map_cons, List.nodup_cons] at hd
    by_cases h : p.1 = k
    · subst h
      simpa [keysNodup, pyDictInsert, List.nodup_cons] using hd
    · have hrest := ih hd.2
      simp only [keysNodup, pyDictInsert, beq_iff_eq, h, if_false, List.map_cons,
        List.nodup_cons]
      refine ⟨fun hmem => ?_, hrest⟩
      rcases mem_keys_of_pyDictInsert rest k p.1 v hmem with h' | h'
      · exact hd.1 h'
      · exact h h'

theorem pyLookup_eq_some_of_mem {α : Type} {d : List (String × α)} {k : String} {v : α}
    (hd : keysNodup d) (hmem : (k, v) ∈ d) : pyLookup d k = some v := by
  induction d with
  | nil => simp at hmem
  | cons p rest ih =>
    simp only [keysNodup, List.map_cons, List.nodup_cons] at hd
    rcases List.mem_cons.mp hmem with h | h
    · subst h
      simp [pyLookup]
    · have hk : p.1 ≠ k := by
        intro hpk
        exact hd.1 (hpk ▸ (List.mem_map.mpr ⟨(k, v), h, rfl⟩))
      simp only [pyLookup, beq_iff_eq, hk, if_false]
      exact ih hd.2 h

theorem mem_of_pyLookup_eq_some {α : Type} {d : List (String × α)} {k : String} {v : α}
    (h : pyLookup d k = some v) : (k, v) ∈ d := by
  induction d with
  | nil => simp [pyLookup] at h
  | cons p rest ih =>
    by_cases hpk : p.1 = k
    · simp only [pyLookup, beq_iff_eq, hpk, if_true, Option.some_inj] at h
      exact List.mem_cons.mpr (Or.inl (by cases p; simp_all))
    · simp only [pyLookup, beq_iff_eq, hpk, if_false] at h
      exact List.mem_cons_of_mem _ (ih h)

/-! ## Restart detection (`coordinator_v2.py`, `TwibiCoordinator._detect_router_restart`,
lines 291-309) -/

/-- A validated `node_info` entry, restricted to the two fields read by
`_detect_router_restart`: `node.get("sn")` and `int(node.get("Uptime", 0))`
(the uptime string is modelled after the `int()` parse). -/
structure NodeRecord where
  sn : String
  uptime : Int
deriving DecidableEq

/-- `{node.get("sn"): node for node in nodes}` followed by extraction of
the parsed uptime: the serial-keyed dict built by `_detect_router_restart`
(later duplicates overwrite earlier ones, as for a Python dict). -/
def nodesBySerial (nodes : List NodeRecord) : List (String × Int) :=
  nodes.foldl (fun acc n => pyDictInsert acc n.sn n.uptime) []

/-- `TwibiCoordinator._detect_router_restart` (coordinator_v2.py lines
291-309).  `oldData = none` models `self.data` being absent (the guard on
line 293); both snapshots are the `node_info` lists.  Returns `true` iff
some serial present in both dicts has `old_uptime > 0`,
`new_uptime < old_uptime` and `old_uptime - new_uptime > 60`. -/
def detectRouterRestart (oldData : Option (List NodeRecord)) (newNodes : List NodeRecord) :
    Bool :=
  match oldData with
  | none => false
  | some oldNodes =>
    (nodesBySerial newNodes).any fun p =>
      match pyLookup (nodesBySerial oldNodes) p.1 with
      | some oldUp => decide (0 < oldUp) && decide (p.2 < oldUp) && decide (60 < oldUp - p.2)
      | none => false

/-- The uptime recorded for serial `s` in a snapshot's node list (the
value in the serial-keyed dict, i.e. of the last node carrying `s`). -/
def snapshotUptime (nodes : List NodeRecord) (s : String) : Option Int :=
  pyLookup (nodesBySerial nodes) s

theorem nodesBySerial_keysNodup (nodes : List NodeRecord) : keysNodup (nodesBySerial nodes) := by
  suffices h : ∀ acc : List (String × Int), keysNodup acc →
      keysNodup (nodes.foldl (fun acc n => pyDictInsert acc n.sn n.uptime) acc) by
    exact h [] (by simp [keysNodup])
  induction nodes with
  | nil => intro acc hacc; simpa using hacc
  | cons n rest ih =>
    intro acc hacc
    exact ih _ (keysNodup_pyDictInsert _ _ _ hacc)

theorem snapshotUptime_of_mem {nodes : List NodeRecord} {s : String} {u : Int}
    (h : (s, u) ∈ nodesBySerial nodes) : snapshotUptime nodes s = some u :=
  pyLookup_eq_some_of_mem (nodesBySerial_keysNodup nodes) h

/-- C1: restart detection fires exactly when some serial present in both
snapshots regressed by more than 60 seconds from a positive previous
uptime; in particular 5000 → 30 is flagged and 5000 → 5005 is not. -/
theorem detectRouterRestart_iff_uptime_regression
    (oldNodes newNodes : List NodeRecord) :
    (detectRouterRestart (some oldNodes) newNodes = true ↔
      ∃ (s : String) (pu nu : Int), snapshotUptime oldNodes s = some pu ∧
        snapshotUptime newNodes s = some nu ∧ 0 < pu ∧ 60 < pu - nu)
    ∧ detectRouterRestart (some [⟨"S", 5000⟩]) [⟨"S", 30⟩] = true
    ∧ detectRouterRestart (some [⟨"S", 5000⟩]) [⟨"S", 5005⟩] = false := by
  refine ⟨?_, by decide, by decide⟩
  constructor
  · intro h
    simp only [detectRouterRestart, List.any_eq_true] at h
    obtain ⟨p, hmem, hp⟩ := h
    cases hlk : pyLookup (nodesBySerial oldNodes) p.1 with
    | none => rw [hlk] at hp; simp at hp
    | some pu =>
      rw [hlk] at hp
      simp only [Bool.and_eq_true, decide_eq_true_eq] at hp
      exact ⟨p.1, pu, p.2, hlk, snapshotUptime_of_mem hmem, hp.1.1, hp.2⟩
  · rintro ⟨s, pu, nu, hold, hnew, hpos, hreg⟩
    simp only [snapshotUptime] at hold hnew
    simp only [detectRouterRestart, List.any_eq_true]
    refine ⟨(s, nu), mem_of_pyLookup_eq_some hnew, ?_⟩
    simp only [show ((s, nu).1 : String) = s from rfl, show ((s, nu).2 : Int) = nu from rfl,
      hold, Bool.and_eq_true, decide_eq_true_eq]
    exact ⟨⟨hpos, by omega⟩, hreg⟩

/-! ## get_data body classification (`api/connection.py`,
`TwibiConnection.get_data`, lines 93-124) -/

/-- The characters removed by Python's `str.strip()`. -/
def isPySpace (c : Char) : Bool :=
  c == ' ' || c == '\t' || c == '\n' || c == '\r' || c == '\x0b' || c == '\x0c'

/-- Python `str.strip()` on the character list of a string. -/
def pyStrip (l : List Char) : List Char :=
  ((l.dropWhile isPySpace).reverse.dropWhile isPySpace).reverse

/-- Python `str.lower()` on the character list of a string (ASCII case
fold; the router bodies compared here are ASCII). -/
def pyLower (l : List Char) : List Char := l.map Char.toLower

/-- How `get_data` resolves: a parsed JSON body, an `AuthenticationError`,
or an `APIError`.  (The transport-failure `ConnectionError` path is not
part of body classification.) -/
inductive GetOutcome where
  | success
  | authError
  | apiError
deriving DecidableEq

/-- Python's `pat in s` substring test on character lists: `pat` is a
prefix of some suffix of `l`. -/
def strContainsSub (pat : List Char) : List Char → Bool
  | [] => pat.isPrefixOf []
  | c :: rest => pat.isPrefixOf (c :: rest) || strContainsSub pat rest

/-- connection.py line 112: the HTML-login-page sniff that `get_data`
applies to a body that failed JSON parsing —
`raw_data.strip().lower().startswith('<!doctype html') or '<html' in raw_data.lower()`.
Note the second test is a substring test, not a prefix test. -/
def isHtmlLoginPage (raw : String) : Bool :=
  "<!doctype html".data.isPrefixOf (pyLower (pyStrip raw.data))
  || strContainsSub "<html".data (pyLower raw.data)

/-- connection.py lines 105-119: classification of a `get_data` response
body.  `jsonOk` is the outcome of `json.loads(raw_data)`; the second
component is the `_authenticated` flag after the classification (the
caller enters with it `true`, set by `ensure_authenticated`). -/
def classifyGetBody (raw : String) (jsonOk : Bool) : GetOutcome × Bool :=
  if pyStrip raw.data = [] then (GetOutcome.apiError, true)
  else if jsonOk then (GetOutcome.success, true)
  else if isHtmlLoginPage raw then (GetOutcome.authError, false)
  else (GetOutcome.apiError, true)

/-- Modelled from the claim's wording (not from the source): a body "is
HTML" when, case-insensitively, the stripped body has a `<!doctype html`
or `<html` PREFIX.  Kept separate from `isHtmlLoginPage` so the two can
be compared. -/
def specHtmlPrefixTest (raw : String) : Bool :=
  "<!doctype html".data.isPrefixOf (pyLower (pyStrip raw.data))
  || "<html".data.isPrefixOf (pyLower (pyStrip raw.data))

theorem mem_of_isPrefixOf {pat l : List Char} (h : pat.isPrefixOf l = true) :
    ∀ x ∈ pat, x ∈ l := by
  induction pat generalizing l with
  | nil => intro x hx; simp at hx
  | cons a as ih =>
    cases l with
    | nil => simp [List.isPrefixOf] at h
    | cons b bs =>
      simp only [List.isPrefixOf, Bool.and_eq_true, beq_iff_eq] at h
      intro x hx
      rcases List.mem_cons.mp hx with hx | hx
      · exact List.mem_cons.mpr (Or.inl (hx.trans h.1))
      · exact List.mem_cons_of_mem _ (ih h.2 x hx)

theorem mem_of_strContainsSub {pat l : List Char} (h : strContainsSub pat l = true) :
    ∀ x ∈ pat, x ∈ l := by
  induction l with
  | nil =>
    cases pat with
    | nil => intro x hx; simp at hx
    | cons a as => simp [strContainsSub, List.isPrefixOf] at h
  | cons c rest ih =>
    simp only [strContainsSub, Bool.or_eq_true] at h
    rcases h with h | h
    · exact mem_of_isPrefixOf h
    · intro x hx
      exact List.mem_cons_of_mem _ (ih h x hx)

theorem pyStrip_eq_nil_all_space {l : List Char} (h : pyStrip l = []) :
    ∀ c ∈ l, isPySpace c = true := by
  intro c hc
  have h1 : (l.dropWhile isPySpace).reverse.dropWhile isPySpace = [] := by
    simpa [pyStrip, List.reverse_eq_nil_iff] using h
  have h2 : ∀ x ∈ l.dropWhile isPySpace, isPySpace x := by
    intro x hx
    exact List.dropWhile_eq_nil_iff.mp h1 x (List.mem_reverse.mpr hx)
  have h3 : c ∈ l.takeWhile isPySpace ++ l.dropWhile isPySpace := by
    rw [List.takeWhile_append_dropWhile]
    exact hc
  rcases List.mem_append.mp h3 with h4 | h4
  · exact List.mem_takeWhile_imp h4
  · exact h2 c h4

theorem toLower_eq_self_of_space {c : Char} (h : isPySpace c = true) :
    Char.toLower c = c := by
  simp only [isPySpace, Bool.or_eq_true, beq_iff_eq] at h
  rcases h with ((((h | h) | h) | h) | h) | h <;> subst h <;> decide

/-- C2 counterexample: the body `"x<html"` is not valid JSON and is not
HTML by the claim's prefix test, yet `get_data` classifies it as an
`AuthenticationError` (clearing the authenticated flag) rather than an
`APIError`, because the code's second sniff is a substring test. -/
theorem classifyGetBody_prefix_claim_counterexample :
    specHtmlPrefixTest "x<html" = false
    ∧ classifyGetBody "x<html" false = (GetOutcome.authError, false) :=
  ⟨by decide, by decide⟩

/-- C2 (amended): for every non-JSON `get_data` body, if the body is HTML
by the code's test — stripped body starts case-insensitively with
`<!doctype html`, or the body contains `<html` anywhere case-insensitively
— then the result is `AuthenticationError` with the authenticated flag
cleared; otherwise the result is `APIError` with the flag left set. -/
theorem classifyGetBody_html_amended (raw : String) :
    (isHtmlLoginPage raw = true →
      classifyGetBody raw false = (GetOutcome.authError, false))
    ∧ (isHtmlLoginPage raw = false →
      classifyGetBody raw false = (GetOutcome.apiError, true)) := by
  constructor
  · intro h
    have hne : pyStrip raw.data ≠ [] := by
      intro hnil
      have hsp := pyStrip_eq_nil_all_space hnil
      simp only [isHtmlLoginPage, Bool.or_eq_true] at h
      rcases h with h | h
      · rw [hnil] at h
        simp [pyLower, List.isPrefixOf] at h
      · have hlt : '<' ∈ pyLower raw.data := mem_of_strContainsSub h '<' (by decide)
        obtain ⟨c, hc, hlc⟩ := List.mem_map.mp hlt
        rw [toLower_eq_self_of_space (hsp c hc)] at hlc
        rw [hlc] at hc
        have := hsp '<' hc
        simp [isPySpace] at this
    simp [classifyGetBody, hne, h]
  · intro h
    by_cases hnil : pyStrip raw.data = []
    · simp [classifyGetBody, hnil]
    · simp [classifyGetBody, hnil, h]

/-- Witness for `classifyGetBody_html_amended` at concrete bodies. -/
theorem classifyGetBody_html_amended_witness :
    classifyGetBody "<!DOCTYPE html><body>login</body>" false = (GetOutcome.authError, false)
    ∧ classifyGetBody "notjson" false = (GetOutcome.apiError, true) :=
  ⟨(classifyGetBody_html_amended "<!DOCTYPE html><body>login</body>").1 (by decide),
   (classifyGetBody_html_amended "notjson").2 (by decide)⟩

/-! ## Typed records (`api/models.py`) and the online-device fetch
(`api/data_fetcher.py`, `TwibiDataFetcher.get_online_devices`, lines 45-55) -/

/-- `NodeInfo` (models.py lines 7-36); raw firmware module values are
string-valued dicts, so each field holds the raw string (for
`link_quality` the `str()` wrapper in `from_dict` is the identity). -/
structure NodeInfo where
  id : String
  ip : String
  role : String
  serial_number : String
  led : String
  location : String
  lan_mac : String
  wan_mac : String
  wifi_5g_mac : String
  wifi_2g_mac : String
  device_name : String
  device_version : String
  serial : String
  group_serial : String
  uptime : String
  update_date : String
  ipv6 : String
  net_status : String
  link_status : String
  link_quality : Option String
  netmask : String
  gateway : String
  first_dns : String
  second_dns : String
  up_speed : String
  down_speed : String
deriving DecidableEq

/-- `NodeInfo.from_dict` (models.py lines 38-68). -/
def NodeInfo.fromDict (data : List (String × String)) : NodeInfo where
  id := pyGet data "id" ""
  ip := pyGet data "ip" ""
  role := pyGet data "role" "0"
  serial_number := pyGet data "serial_number" ""
  led := pyGet data "led" "0"
  location := pyGet data "location" ""
  lan_mac := pyGet data "lan_mac" ""
  wan_mac := pyGet data "wan_mac" ""
  wifi_5g_mac := pyGet data "5Gwifi_mac" ""
  wifi_2g_mac := pyGet data "2Gwifi_mac" ""
  device_name := pyGet data "dut_name" ""
  device_version := pyGet data "dut_version" ""
  serial := pyGet data "sn" ""
  group_serial := pyGet data "groupsn" ""
  uptime := pyGet data "Uptime" ""
  update_date := pyGet data "up_date" ""
  ipv6 := pyGet data "ipv6" ""
  net_status := pyGet data "net_status" ""
  link_status := pyGet data "link_status" ""
  link_quality := pyLookup data "link_quality"
  netmask := pyGet data "netmask" ""
  gateway := pyGet data "gw" ""
  first_dns := pyGet data "first_dns" ""
  second_dns := pyGet data "sec_dns" ""
  up_speed := pyGet data "up_speed" ""
  down_speed := pyGet data "down_speed" ""

/-- `OnlineDevice` (models.py lines 112-126). -/
structure OnlineDevice where
  ip : String
  name : String
  mac : String
  download_speed : String
  upload_speed : String
  connect_time : String
  serial : String
  link_type : Option String
  rssi : String
  tx_rate : String
  wifi_mode : String
deriving DecidableEq

/-- `OnlineDevice.from_dict` (models.py lines 128-143). -/
def OnlineDevice.fromDict (data : List (String × String)) : OnlineDevice where
  ip := pyGet data "dev_ip" ""
  name := pyGet data "dev_name" ""
  mac := pyGet data "dev_mac" ""
  download_speed := pyGet data "download_speed" "0"
  upload_speed := pyGet data "upload_speed" "0"
  connect_time := pyGet data "connect_time" ""
  serial := pyGet data "sn" ""
  link_type := pyLookup data "link_type"
  rssi := pyGet data "rssi" "0"
  tx_rate := pyGet data "tx_rate" "0"
  wifi_mode := pyGet data "wifi_mode" "--"

/-- `OnlineDevice.is_wired` (models.py lines 161-164): the band marker
`"--"` is the wired sentinel. -/
def OnlineDevice.isWired (d : OnlineDevice) : Bool := d.wifi_mode == "--"

/-- `TwibiDataFetcher.get_online_devices` (data_fetcher.py lines 45-55):
map every raw entry of `online_list` through `OnlineDevice.from_dict`,
then drop wired devices when `exclude_wired` is set. -/
def getOnlineDevices (excludeWired : Bool) (raw : List (List (String × String))) :
    List OnlineDevice :=
  let devices := raw.map OnlineDevice.fromDict
  if excludeWired then devices.filter (fun d => !d.isWired) else devices

/-- C4: with `exclude_wired=true` the result is exactly the
order-preserving subset of the mapped devices whose band marker is not
the wired sentinel `"--"`; with `exclude_wired=false` it is the full
mapped list in input order. -/
theorem getOnlineDevices_wired_filter (raw : List (List (String × String))) :
    getOnlineDevices true raw
      = (raw.map OnlineDevice.fromDict).filter (fun d => decide (d.wifi_mode ≠ "--"))
    ∧ (getOnlineDevices true raw).Sublist (raw.map OnlineDevice.fromDict)
    ∧ (∀ d, d ∈ getOnlineDevices true raw ↔
        d ∈ raw.map OnlineDevice.fromDict ∧ d.wifi_mode ≠ "--")
    ∧ getOnlineDevices false raw = raw.map OnlineDevice.fromDict := by
  have hfilter : getOnlineDevices true raw
      = (raw.map OnlineDevice.fromDict).filter (fun d => decide (d.wifi_mode ≠ "--")) := by
    simp only [getOnlineDevices, if_true]
    congr 1
    funext d
    by_cases h : d.wifi_mode = "--" <;> simp [OnlineDevice.isWired, h]
  refine ⟨hfilter, ?_, ?_, rfl⟩
  · rw [hfilter]
    exact List.filter_sublist _
  · intro d
    rw [hfilter]
    simp [List.mem_filter]

/-- C6 counterexample: on a dict missing every optional field, the
mappers fill `wifi_mode` with `"--"` and `rssi` with `"0"` — not with the
empty string — although neither is `link_type` or `link_quality`. -/
theorem fromDict_empty_default_counterexample :
    pyLookup ([] : List (String × String)) "wifi_mode" = none
    ∧ (OnlineDevice.fromDict []).wifi_mode = "--"
    ∧ (OnlineDevice.fromDict []).rssi = "0"
    ∧ ("--" : String) ≠ "" ∧ ("0" : String) ≠ "" :=
  ⟨rfl, rfl, rfl, by decide, by decide⟩

/-- C6 (amended): each missing optional field is filled with its
per-field default: `role` and `led` default to `"0"`;
`download_speed`, `upload_speed`, `rssi` and `tx_rate` default to `"0"`;
`wifi_mode` defaults to the wired sentinel `"--"`; `link_type` and
`link_quality` default to absent/null; every other string field defaults
to the empty string. -/
theorem recordMapper_missing_defaults (d : List (String × String)) :
    (pyLookup d "id" = none → (NodeInfo.fromDict d).id = "")
    ∧ (pyLookup d "ip" = none → (NodeInfo.fromDict d).ip = "")
    ∧ (pyLookup d "role" = none → (NodeInfo.fromDict d).role = "0")
    ∧ (pyLookup d "serial_number" = none → (NodeInfo.fromDict d).serial_number = "")
    ∧ (pyLookup d "led" = none → (NodeInfo.fromDict d).led = "0")
    ∧ (pyLookup d "location" = none → (NodeInfo.fromDict d).location = "")
    ∧ (pyLookup d "lan_mac" = none → (NodeInfo.fromDict d).lan_mac = "")
    ∧ (pyLookup d "wan_mac" = none → (NodeInfo.fromDict d).wan_mac = "")
    ∧ (pyLookup d "5Gwifi_mac" = none → (NodeInfo.fromDict d).wifi_5g_mac = "")
    ∧ (pyLookup d "2Gwifi_mac" = none → (NodeInfo.fromDict d).wifi_2g_mac = "")
    ∧ (pyLookup d "dut_name" = none → (NodeInfo.fromDict d).device_name = "")
    ∧ (pyLookup d "dut_version" = none → (NodeInfo.fromDict d).device_version = "")
    ∧ (pyLookup d "sn" = none → (NodeInfo.fromDict d).serial = "")
    ∧ (pyLookup d "groupsn" = none → (NodeInfo.fromDict d).group_serial = "")
    ∧ (pyLookup d "Uptime" = none → (NodeInfo.fromDict d).uptime = "")
    ∧ (pyLookup d "up_date" = none → (NodeInfo.fromDict d).update_date = "")
    ∧ (pyLookup d "ipv6" = none → (NodeInfo.fromDict d).ipv6 = "")
    ∧ (pyLookup d "net_status" = none → (NodeInfo.fromDict d).net_status = "")
    ∧ (pyLookup d "link_status" = none → (NodeInfo.fromDict d).link_status = "")
    ∧ (pyLookup d "link_quality" = none → (NodeInfo.fromDict d).link_quality = none)
    ∧ (pyLookup d "netmask" = none → (NodeInfo.fromDict d).netmask = "")
    ∧ (pyLookup d "gw" = none → (NodeInfo.fromDict d).gateway = "")
    ∧ (pyLookup d "first_dns" = none → (NodeInfo.fromDict d).first_dns = "")
    ∧ (pyLookup d "sec_dns" = none → (NodeInfo.fromDict d).second_dns = "")
    ∧ (pyLookup d "up_speed" = none → (NodeInfo.fromDict d).up_speed = "")
    ∧ (pyLookup d "down_speed" = none → (NodeInfo.fromDict d).down_speed = "")
    ∧ (pyLookup d "dev_ip" = none → (OnlineDevice.fromDict d).ip = "")
    ∧ (pyLookup d "dev_name" = none → (OnlineDevice.fromDict d).name = "")
    ∧ (pyLookup d "dev_mac" = none → (OnlineDevice.fromDict d).mac = "")
    ∧ (pyLookup d "download_speed" = none → (OnlineDevice.fromDict d).download_speed = "0")
    ∧ (pyLookup d "upload_speed" = none → (OnlineDevice.fromDict d).upload_speed = "0")
    ∧ (pyLookup d "connect_time" = none → (OnlineDevice.fromDict d).connect_time = "")
    ∧ (pyLookup d "sn" = none → (OnlineDevice.fromDict d).serial = "")
    ∧ (pyLookup d "link_type" = none → (OnlineDevice.fromDict d).link_type = none)
    ∧ (pyLookup d "rssi" = none → (OnlineDevice.fromDict d).rssi = "0")
    ∧ (pyLookup d "tx_rate" = none → (OnlineDevice.fromDict d).tx_rate = "0")
    ∧ (pyLookup d "wifi_mode" = none → (OnlineDevice.fromDict d).wifi_mode = "--") := by
  have base : ∀ (k dflt : String), pyLookup d k = none → pyGet d k dflt = dflt := by
    intro k dflt h
    simp [pyGet, h]
  exact ⟨fun h => base _ _ h, fun h => base _ _ h, fun h => base _ _ h, fun h => base _ _ h, fun h => base _ _ h, fun h => base _ _ h, fun h => base _ _ h, fun h => base _ _ h, fun h => base _ _ h, fun h => base _ _ h, fun h => base _ _ h, fun h => base _ _ h, fun h => base _ _ h, fun h => base _ _ h, fun h => base _ _ h, fun h => base _ _ h, fun h => base _ _ h, fun h => base _ _ h, fun h => base _ _ h, fun h => h, fun h => base _ _ h, fun h => base _ _ h, fun h => base _ _ h, fun h => base _ _ h, fun h => base _ _ h, fun h => base _ _ h, fun h => base _ _ h, fun h => base _ _ h, fun h => base _ _ h, fun h => base _ _ h, fun h => base _ _ h, fun h => base _ _ h, fun h => base _ _ h, fun h => h, fun h => base _ _ h, fun h => base _ _ h, fun h => base _ _ h⟩

/-- Witness for `recordMapper_missing_defaults` at the empty dict. -/
theorem recordMapper_missing_defaults_witness :
    (NodeInfo.fromDict []).id = ""
    ∧ (NodeInfo.fromDict []).ip = ""
    ∧ (NodeInfo.fromDict []).role = "0"
    ∧ (NodeInfo.fromDict []).serial_number = ""
    ∧ (NodeInfo.fromDict []).led = "0"
    ∧ (NodeInfo.fromDict []).location = ""
    ∧ (NodeInfo.fromDict []).lan_mac = ""
    ∧ (NodeInfo.fromDict []).wan_mac = ""
    ∧ (NodeInfo.fromDict []).wifi_5g_mac = ""
    ∧ (NodeInfo.fromDict []).wifi_2g_mac = ""
    ∧ (NodeInfo.fromDict []).device_name = ""
    ∧ (NodeInfo.fromDict []).device_version = ""
    ∧ (NodeInfo.fromDict []).serial = ""
    ∧ (NodeInfo.fromDict []).group_serial = ""
    ∧ (NodeInfo.fromDict []).uptime = ""
    ∧ (NodeInfo.fromDict []).update_date = ""
    ∧ (NodeInfo.fromDict []).ipv6 = ""
    ∧ (NodeInfo.fromDict []).net_status = ""
    ∧ (NodeInfo.fromDict []).link_status = ""
    ∧ (NodeInfo.fromDict []).link_quality = none
    ∧ (NodeInfo.fromDict []).netmask = ""
    ∧ (NodeInfo.fromDict []).gateway = ""
    ∧ (NodeInfo.fromDict []).first_dns = ""
    ∧ (NodeInfo.fromDict []).second_dns = ""
    ∧ (NodeInfo.fromDict []).up_speed = ""
    ∧ (NodeInfo.fromDict []).down_speed = ""
    ∧ (OnlineDevice.fromDict []).ip = ""
    ∧ (OnlineDevice.fromDict []).name = ""
    ∧ (OnlineDevice.fromDict []).mac = ""
    ∧ (OnlineDevice.fromDict []).download_speed = "0"
    ∧ (OnlineDevice.fromDict []).upload_speed = "0"
    ∧ (OnlineDevice.fromDict []).connect_time = ""
    ∧ (OnlineDevice.fromDict []).serial = ""
    ∧ (OnlineDevice.fromDict []).link_type = none
    ∧ (OnlineDevice.fromDict []).rssi = "0"
    ∧ (OnlineDevice.fromDict []).tx_rate = "0"
    ∧ (OnlineDevice.fromDict []).wifi_mode = "--" := by
  obtain ⟨h1, h2, h3, h4, h5, h6, h7, h8, h9, h10, h11, h12, h13, h14, h15, h16, h17, h18, h19, h20, h21, h22, h23, h24, h25, h26, h27, h28, h29, h30, h31, h32, h33, h34, h35, h36, h37⟩ := recordMapper_missing_defaults []
  exact ⟨h1 rfl, h2 rfl, h3 rfl, h4 rfl, h5 rfl, h6 rfl, h7 rfl, h8 rfl, h9 rfl, h10 rfl, h11 rfl, h12 rfl, h13 rfl, h14 rfl, h15 rfl, h16 rfl, h17 rfl, h18 rfl, h19 rfl, h20 rfl, h21 rfl, h22 rfl, h23 rfl, h24 rfl, h25 rfl, h26 rfl, h27 rfl, h28 rfl, h29 rfl, h30 rfl, h31 rfl, h32 rfl, h33 rfl, h34 rfl, h35 rfl, h36 rfl, h37 rfl⟩

/-! ## JSON values, schema validation (`const.py`) and the update cycle
(`coordinator_v2.py`, `TwibiCoordinator._async_update_data`, lines 42-90) -/

/-- A JSON value as delivered by the router and assembled by the
coordinator. -/
inductive JVal where
  | jstr : String → JVal
  | jint : Int → JVal
  | jlist : List JVal → JVal
  | jdict : List (String × JVal) → JVal
  | jnull : JVal

/-- A value holds a string. -/
def JVal.isStr : JVal → Bool
  | .jstr _ => true
  | _ => false

/-- `NODE_SCHEMA`'s required keys (const.py lines 23-52). -/
def nodeRequiredKeys : List String :=
  ["id", "ip", "role", "netmask", "gw", "first_dns", "sec_dns", "up_speed",
   "down_speed", "serial_number", "led", "location", "lan_mac", "wan_mac",
   "5Gwifi_mac", "2Gwifi_mac", "dut_name", "dut_version", "sn", "groupsn",
   "Uptime", "up_date", "ipv6", "net_status", "link_status"]

/-- `NODE_SCHEMA` (const.py lines 23-52): every required key present with
a string value, `role` and `led` restricted to `"0"`/`"1"`, optional
`link_quality` a string, an int or null, and (voluptuous's default
PREVENT_EXTRA) no unknown keys. -/
def validateNode : JVal → Bool
  | .jdict d =>
    nodeRequiredKeys.all (fun k => match pyLookup d k with
      | some v => v.isStr
      | none => false)
    && (match pyLookup d "role" with
      | some (.jstr s) => s == "0" || s == "1"
      | _ => false)
    && (match pyLookup d "led" with
      | some (.jstr s) => s == "0" || s == "1"
      | _ => false)
    && (match pyLookup d "link_quality" with
      | none => true
      | some (.jstr _) => true
      | some (.jint _) => true
      | some .jnull => true
      | _ => false)
    && d.all (fun p => nodeRequiredKeys.contains p.1 || p.1 == "link_quality")
  | _ => false

/-- `ONLINE_DEVICE_SCHEMA`'s required keys (const.py lines 54-68). -/
def deviceRequiredKeys : List String :=
  ["dev_ip", "dev_name", "dev_mac", "download_speed", "upload_speed",
   "connect_time", "sn", "rssi", "tx_rate", "wifi_mode"]

/-- `ONLINE_DEVICE_SCHEMA` (const.py lines 54-68). -/
def validateDevice : JVal → Bool
  | .jdict d =>
    deviceRequiredKeys.all (fun k => match pyLookup d k with
      | some v => v.isStr
      | none => false)
    && (match pyLookup d "link_type" with
      | none => true
      | some (.jstr _) => true
      | some .jnull => true
      | _ => false)
    && d.all (fun p => deviceRequiredKeys.contains p.1 || p.1 == "link_type")
  | _ => false

/-- `WAN_STATISTIC_SCHEMA`'s required keys (const.py lines 70-78). -/
def wanStatRequiredKeys : List String :=
  ["id", "up_speed", "down_speed", "ttotal_up", "ttotal_down"]

/-- `WAN_STATISTIC_SCHEMA` (const.py lines 70-78). -/
def validateWanStat : JVal → Bool
  | .jdict d =>
    wanStatRequiredKeys.all (fun k => match pyLookup d k with
      | some v => v.isStr
      | none => false)
    && d.all (fun p => wanStatRequiredKeys.contains p.1)
  | _ => false

/-- The type constraint `MAIN_SCHEMA` puts on each known optional key
(const.py lines 85-99); unknown keys pass (`extra=vol.ALLOW_EXTRA`). -/
def mainOptionalOk (k : String) (v : JVal) : Bool :=
  if k == "wan_info" then
    match v with | .jlist _ => true | .jdict _ => true | .jnull => true | _ => false
  else if k == "lan_info" || k == "wifi" || k == "guest_info" || k == "getversion"
      || k == "upnp_info" || k == "remote_web" || k == "port_list"
      || k == "dns_conf" || k == "tr069_info" then
    match v with | .jdict _ => true | .jnull => true | _ => false
  else if k == "static_ip" || k == "net_link_status" || k == "link_module"
      || k == "mac_clone" then
    match v with | .jlist _ => true | .jnull => true | _ => false
  else true

/-- `MAIN_SCHEMA` (const.py lines 80-102): required non-empty `node_info`
list of valid nodes, required `online_list`/`wan_statistic` lists of
valid entries, typed optional keys, extra keys allowed. -/
def validateMain (d : List (String × JVal)) : Bool :=
  (match pyLookup d "node_info" with
    | some (.jlist xs) => xs.all validateNode && decide (1 ≤ xs.length)
    | _ => false)
  && (match pyLookup d "online_list" with
    | some (.jlist xs) => xs.all validateDevice
    | _ => false)
  && (match pyLookup d "wan_statistic" with
    | some (.jlist xs) => xs.all validateWanStat
    | _ => false)
  && d.all (fun p => mainOptionalOk p.1 p.2)

/-- The core modules fetched in one call (coordinator_v2.py line 57). -/
def coreModules : List String := ["node_info", "online_list", "wan_statistic"]

/-- The extended modules fetched one by one (coordinator_v2.py line 60). -/
def extendedModules : List String :=
  ["wan_info", "lan_info", "wifi", "guest_info", "upnp_info"]

/-- One iteration of the extended-module loop (coordinator_v2.py lines
61-69): a successful fetch of module `m` (modelled as the value stored
under its module key, `ext m = some v`) is merged via `data.update(...)`;
a failed one (`ext m = none`, the `except Exception: continue`) is
swallowed and leaves the data unchanged. -/
def extStep (ext : String → Option JVal) (acc : List (String × JVal)) (m : String) :
    List (String × JVal) :=
  match ext m with
  | some v => pyDictInsert acc m v
  | none => acc

/-- coordinator_v2.py lines 60-69: starting from the core fetch's data,
try each extended module in order, merging the successes. -/
def assembleSnapshot (core : List (String × JVal)) (ext : String → Option JVal) :
    List (String × JVal) :=
  extendedModules.foldl (extStep ext) core

/-- coordinator_v2.py lines 55-90, success path of one attempt given that
the core fetch succeeded with `core`: merge the extended fetches, then
validate with `MAIN_SCHEMA`; `none` models the `vol.Invalid` exception
(which fails the attempt), `some` the returned validated snapshot. -/
def updateCycleResult (core : List (String × JVal)) (ext : String → Option JVal) :
    Option (List (String × JVal)) :=
  let merged := assembleSnapshot core ext
  if validateMain merged then some merged else none

theorem pyLookup_foldl_extStep_none (ms : List String) (ext : String → Option JVal)
    (acc : List (String × JVal)) (m : String) (hfail : ext m = none)
    (hacc : pyLookup acc m = none) :
    pyLookup (ms.foldl (extStep ext) acc) m = none := by
  induction ms generalizing acc with
  | nil => simpa using hacc
  | cons m' rest ih =>
    simp only [List.foldl_cons]
    cases hx : ext m' with
    | none =>
      rw [show extStep ext acc m' = acc by simp [extStep, hx]]
      exact ih acc hacc
    | some v =>
      have hne : m ≠ m' := by
        rintro rfl
        rw [hfail] at hx
        exact Option.noConfusion hx
      refine ih _ ?_
      rw [show extStep ext acc m' = pyDictInsert acc m' v by simp [extStep, hx]]
      rw [pyLookup_insert_ne _ _ _ _ hne]
      exact hacc

theorem pyLookup_foldl_extStep_not_mem (ms : List String) (ext : String → Option JVal)
    (acc : List (String × JVal)) (k : String) (hk : k ∉ ms) :
    pyLookup (ms.foldl (extStep ext) acc) k = pyLookup acc k := by
  induction ms generalizing acc with
  | nil => rfl
  | cons m' rest ih =>
    have hne : k ≠ m' := fun h => hk (h ▸ List.mem_cons_self m' rest)
    have hk' : k ∉ rest := fun h => hk (List.mem_cons_of_mem _ h)
    simp only [List.foldl_cons]
    rw [ih _ hk']
    cases hx : ext m' with
    | none => simp [extStep, hx]
    | some v => simp [extStep, hx, pyLookup_insert_ne _ _ _ _ hne]

theorem pyLookup_foldl_extStep_mem (ms : List String) (ext : String → Option JVal)
    (acc : List (String × JVal)) (m : String) (v : JVal) (hnd : ms.Nodup)
    (hm : m ∈ ms) (hx : ext m = some v) :
    pyLookup (ms.foldl (extStep ext) acc) m = some v := by
  induction ms generalizing acc with
  | nil => simp at hm
  | cons m' rest ih =>
    simp only [List.nodup_cons] at hnd
    simp only [List.foldl_cons]
    rcases List.mem_cons.mp hm with h | h
    · subst h
      rw [pyLookup_foldl_extStep_not_mem rest ext _ m hnd.1]
      simp [extStep, hx, pyLookup_insert_self]
    · exact ih _ hnd.2 h

/-- C3: if the core fetch validates and an extended module's fetch fails,
the attempt still completes, the snapshot omits the failed module, and it
contains the three core modules and every extended module that succeeded. -/
theorem updateCycle_extended_failure_swallowed
    (core : List (String × JVal)) (ext : String → Option JVal) (m : String)
    (hm : m ∈ extendedModules) (hfail : ext m = none)
    (hnc : pyLookup core m = none)
    (hval : validateMain (assembleSnapshot core ext) = true) :
    updateCycleResult core ext = some (assembleSnapshot core ext)
    ∧ pyLookup (assembleSnapshot core ext) m = none
    ∧ (∀ c ∈ coreModules, ∃ xs, pyLookup (assembleSnapshot core ext) c = some (JVal.jlist xs))
    ∧ (∀ m2 ∈ extendedModules, ∀ v, ext m2 = some v →
        pyLookup (assembleSnapshot core ext) m2 = some v) := by
  refine ⟨by simp [updateCycleResult, hval], ?_, ?_, ?_⟩
  · exact pyLookup_foldl_extStep_none _ ext core m hfail hnc
  · simp only [validateMain, Bool.and_eq_true] at hval
    obtain ⟨⟨⟨hA, hB⟩, hC⟩, _⟩ := hval
    intro c hc
    simp only [coreModules, List.mem_cons, List.not_mem_nil, or_false] at hc
    rcases hc with rfl | rfl | rfl
    · cases hlk : pyLookup (assembleSnapshot core ext) "node_info" with
      | none => rw [hlk] at hA; simp at hA
      | some v =>
        rw [hlk] at hA
        cases v with
        | jlist xs => exact ⟨xs, rfl⟩
        | jstr s => simp at hA
        | jint n => simp at hA
        | jdict d => simp at hA
        | jnull => simp at hA
    · cases hlk : pyLookup (assembleSnapshot core ext) "online_list" with
      | none => rw [hlk] at hB; simp at hB
      | some v =>
        rw [hlk] at hB
        cases v with
        | jlist xs => exact ⟨xs, rfl⟩
        | jstr s => simp at hB
        | jint n => simp at hB
        | jdict d => simp at hB
        | jnull => simp at hB
    · cases hlk : pyLookup (assembleSnapshot core ext) "wan_statistic" with
      | none => rw [hlk] at hC; simp at hC
      | some v =>
        rw [hlk] at hC
        cases v with
        | jlist xs => exact ⟨xs, rfl⟩
        | jstr s => simp at hC
        | jint n => simp at hC
        | jdict d => simp at hC
        | jnull => simp at hC
  · intro m2 hm2 v hx
    exact pyLookup_foldl_extStep_mem _ ext core m2 v (by decide) hm2 hx

/-- A concrete valid `node_info` entry for exercising `MAIN_SCHEMA`. -/
def sampleNodeDict : List (String × JVal) :=
  [("id", .jstr "1"), ("ip", .jstr "192.168.5.1"), ("role", .jstr "1"),
   ("netmask", .jstr "255.255.255.0"), ("gw", .jstr "192.168.5.1"),
   ("first_dns", .jstr "8.8.8.8"), ("sec_dns", .jstr ""), ("up_speed", .jstr "0"),
   ("down_speed", .jstr "0"), ("serial_number", .jstr "SN1"), ("led", .jstr "1"),
   ("location", .jstr ""), ("lan_mac", .jstr "aa:bb:cc:dd:ee:ff"),
   ("wan_mac", .jstr "aa:bb:cc:dd:ee:00"), ("5Gwifi_mac", .jstr "aa:bb:cc:dd:ee:01"),
   ("2Gwifi_mac", .jstr "aa:bb:cc:dd:ee:02"), ("dut_name", .jstr "Twibi"),
   ("dut_version", .jstr "1.0"), ("sn", .jstr "SN1"), ("groupsn", .jstr "G1"),
   ("Uptime", .jstr "5000"), ("up_date", .jstr "2024-01-01"), ("ipv6", .jstr ""),
   ("net_status", .jstr "3"), ("link_status", .jstr "1")]

/-- A concrete core-fetch result: valid node list, empty device and
WAN-statistic lists. -/
def sampleCore : List (String × JVal) :=
  [("node_info", .jlist [.jdict sampleNodeDict]),
   ("online_list", .jlist []),
   ("wan_statistic", .jlist [])]

/-- A concrete extended-fetch outcome: `lan_info` succeeds, every other
extended module (in particular `wifi`) fails. -/
def sampleExt : String → Option JVal :=
  fun m => if m == "lan_info" then some (.jdict [("lan_ip", .jstr "192.168.5.1")]) else none

/-- Witness for `updateCycle_extended_failure_swallowed`: the concrete
cycle where `wifi` fails and `lan_info` succeeds. -/
theorem updateCycle_extended_failure_swallowed_witness :
    updateCycleResult sampleCore sampleExt = some (assembleSnapshot sampleCore sampleExt)
    ∧ pyLookup (assembleSnapshot sampleCore sampleExt) "wifi" = none
    ∧ (∀ c ∈ coreModules,
        ∃ xs, pyLookup (assembleSnapshot sampleCore sampleExt) c = some (JVal.jlist xs))
    ∧ (∀ m2 ∈ extendedModules, ∀ v, sampleExt m2 = some v →
        pyLookup (assembleSnapshot sampleCore sampleExt) m2 = some v) :=
  updateCycle_extended_failure_swallowed sampleCore sampleExt "wifi"
    (by decide) rfl rfl (by rfl)

/-! ## Connection-error retry backoff (`coordinator_v2.py`,
`TwibiCoordinator._async_update_data`, lines 117-164) -/

/-- coordinator_v2.py lines 131-136: the backoff delay slept after a
failed attempt in the `ConnectionError`/`APIError` branch.  During
restart recovery the delay is capped:
`min(30, base_retry_delay * 2 ** min(attempt, 4))`; otherwise it is the
uncapped exponential `base_retry_delay * 2 ** attempt`. -/
def connErrorDelay (base : Nat) (restartDetected : Bool) (attempt : Nat) : Nat :=
  if restartDetected then min 30 (base * 2 ^ min attempt 4) else base * 2 ^ attempt

/-- One update cycle in which every attempt fails with a connection
error.  `restartAtStart` is `_router_restart_detected` at cycle entry
(line 45, where it selects the attempt budget of 10 over `max_retries`);
`recentSuccess` says whether the line-122 heuristic fires at the first
failure (a success less than 600 s before).  Within a cycle the restart
flag can only flip at the first connection-error attempt — time since
the last success only grows — so the flag seen by every delay
computation is the constant `restartAtStart || recentSuccess`.  The list
holds the delays slept between consecutive attempts (only attempts with
`attempt < max_attempts - 1` sleep, line 129). -/
def cycleConnDelays (base maxRetries : Nat) (restartAtStart recentSuccess : Bool) :
    List Nat :=
  (List.range ((if restartAtStart then 10 else maxRetries) - 1)).map
    (connErrorDelay base (restartAtStart || recentSuccess))

/-- C5 counterexample: in a cycle with no restart recovery (entered with
the flag down and no recent success) and `max_retries = 7` —
`base_retry_delay` at its default 5 — the delay after the fourth attempt
is 40 s, exceeding the claimed 30-second maximum: the 30-second cap is
applied only in the restart-recovery branch. -/
theorem cycleConnDelays_cap_counterexample :
    cycleConnDelays 5 7 false false = [5, 10, 20, 40, 80, 160]
    ∧ 40 ∈ cycleConnDelays 5 7 false false ∧ ¬(40 ≤ 30) :=
  ⟨by decide, by decide, by decide⟩

theorem connErrorDelay_le_succ (base : Nat) (s : Bool) (k : Nat) :
    connErrorDelay base s k ≤ connErrorDelay base s (k + 1) := by
  cases s with
  | false =>
    simp only [connErrorDelay, if_false, Bool.false_eq_true]
    exact Nat.mul_le_mul_left base (Nat.pow_le_pow_right (by omega) (by omega))
  | true =>
    simp only [connErrorDelay, if_true]
    exact min_le_min (Nat.le_refl 30)
      (Nat.mul_le_mul_left base (Nat.pow_le_pow_right (by omega) (by omega)))

/-- C5 (amended): the connection-error backoff delays of one cycle are
always non-decreasing; they are capped at 30 s whenever restart-recovery
is active (flagged at entry or raised by the recent-success heuristic),
and also under the constructor defaults `base_retry_delay = 5`,
`max_retries = 3`; outside restart recovery the delay formula itself is
uncapped. -/
theorem cycleConnDelays_monotone_capped (base maxRetries : Nat)
    (restartAtStart recentSuccess : Bool) :
    List.Chain' (· ≤ ·) (cycleConnDelays base maxRetries restartAtStart recentSuccess)
    ∧ ((restartAtStart || recentSuccess) = true →
        ∀ d ∈ cycleConnDelays base maxRetries restartAtStart recentSuccess, d ≤ 30)
    ∧ (base = 5 → maxRetries = 3 →
        ∀ d ∈ cycleConnDelays base maxRetries restartAtStart recentSuccess, d ≤ 30) := by
  refine ⟨?_, ?_, ?_⟩
  · apply List.Pairwise.chain'
    rw [cycleConnDelays, List.pairwise_map]
    exact (List.pairwise_lt_range _).imp
      (fun h => monotone_nat_of_le_succ (connErrorDelay_le_succ base _) (Nat.le_of_lt h))
  · intro hs d hd
    simp only [cycleConnDelays, hs, List.mem_map] at hd
    obtain ⟨k, _, rfl⟩ := hd
    simp only [connErrorDelay, if_true]
    exact Nat.min_le_left 30 _
  · rintro rfl rfl
    cases restartAtStart <;> cases recentSuccess <;> decide

/-- Witness for `cycleConnDelays_monotone_capped` in restart-recovery
mode with the default base delay and retry count. -/
theorem cycleConnDelays_monotone_capped_witness :
    List.Chain' (· ≤ ·) (cycleConnDelays 5 3 true false)
    ∧ (∀ d ∈ cycleConnDelays 5 3 true false, d ≤ 30)
    ∧ (∀ d ∈ cycleConnDelays 5 3 true false, d ≤ 30) :=
  ⟨(cycleConnDelays_monotone_capped 5 3 true false).1,
   (cycleConnDelays_monotone_capped 5 3 true false).2.1 rfl,
   (cycleConnDelays_monotone_capped 5 3 true false).2.2 rfl rfl⟩

/-! ## MD5 (RFC 1321), login payload (`api/connection.py`,
`TwibiConnection._login`, lines 65-91) and controller command payloads
(`api/controller.py`).  `_login` hashes the plaintext password with
`hashlib.md5(...).hexdigest()`; MD5 is embedded here executably, on `Nat`
with explicit reduction mod 2^32. -/

/-- Addition mod 2^32. -/
def wadd (a b : Nat) : Nat := (a + b) % 4294967296

/-- 32-bit complement. -/
def wnot (a : Nat) : Nat := Nat.xor a 4294967295

/-- 32-bit left rotation (for `a < 2^32`, `s ≤ 32`). -/
def rotl (a s : Nat) : Nat := (a * 2 ^ s) % 4294967296 + a / 2 ^ (32 - s)

/-- MD5 round function F. -/
def md5F (x y z : Nat) : Nat := Nat.lor (Nat.land x y) (Nat.land (wnot x) z)

/-- MD5 round function G. -/
def md5G (x y z : Nat) : Nat := Nat.lor (Nat.land x z) (Nat.land y (wnot z))

/-- MD5 round function H. -/
def md5H (x y z : Nat) : Nat := Nat.xor (Nat.xor x y) z

/-- MD5 round function I. -/
def md5I (x y z : Nat) : Nat := Nat.xor y (Nat.lor x (wnot z))

/-- The MD5 sine-derived constants `K[i] = floor(abs(sin(i+1)) * 2^32)`. -/
def md5K : List Nat :=
  [3614090360, 3905402710, 606105819, 3250441966, 4118548399, 1200080426, 2821735955,
   4249261313, 1770035416, 2336552879, 4294925233, 2304563134, 1804603682, 4254626195,
   2792965006, 1236535329, 4129170786, 3225465664, 643717713, 3921069994, 3593408605,
   38016083, 3634488961, 3889429448, 568446438, 3275163606, 4107603335, 1163531501,
   2850285829, 4243563512, 1735328473, 2368359562, 4294588738, 2272392833, 1839030562,
   4259657740, 2763975236, 1272893353, 4139469664, 3200236656, 681279174, 3936430074,
   3572445317, 76029189, 3654602809, 3873151461, 530742520, 3299628645, 4096336452,
   1126891415, 2878612391, 4237533241, 1700485571, 2399980690, 4293915773, 2240044497,
   1873313359, 4264355552, 2734768916, 1309151649, 4149444226, 3174756917, 718787259,
   3951481745]

/-- The MD5 per-round shift amounts. -/
def md5S : List Nat :=
  [7, 12, 17, 22, 7, 12, 17, 22, 7, 12, 17, 22, 7, 12, 17, 22,
   5, 9, 14, 20, 5, 9, 14, 20, 5, 9, 14, 20, 5, 9, 14, 20,
   4, 11, 16, 23, 4, 11, 16, 23, 4, 11, 16, 23, 4, 11, 16, 23,
   6, 10, 15, 21, 6, 10, 15, 21, 6, 10, 15, 21, 6, 10, 15, 21]

/-- One of the 64 MD5 rounds on state `(a, b, c, d)` over message words
`m`. -/
def md5Round (m : Nat → Nat) (st : Nat × Nat × Nat × Nat) (i : Nat) :
    Nat × Nat × Nat × Nat :=
  let a := st.1
  let b := st.2.1
  let c := st.2.2.1
  let d := st.2.2.2
  let f :=
    if i < 16 then md5F b c d
    else if i < 32 then md5G b c d
    else if i < 48 then md5H b c d
    else md5I b c d
  let g :=
    if i < 16 then i
    else if i < 32 then (5 * i + 1) % 16
    else if i < 48 then (3 * i + 5) % 16
    else (7 * i) % 16
  let tmp := wadd (wadd (wadd a f) (md5K.getD i 0)) (m g)
  (d, wadd b (rotl tmp (md5S.getD i 0)), b, c)

/-- Process one 16-word block. -/
def md5ProcessBlock (h : Nat × Nat × Nat × Nat) (m : Nat → Nat) :
    Nat × Nat × Nat × Nat :=
  let st := (List.range 64).foldl (md5Round m) h
  (wadd h.1 st.1, wadd h.2.1 st.2.1, wadd h.2.2.1 st.2.2.1, wadd h.2.2.2 st.2.2.2)

/-- The `count` little-endian bytes of `n`. -/
def leBytes (n count : Nat) : List Nat := (List.range count).map (fun i => n / 256 ^ i % 256)

/-- MD5 padding: `0x80`, zeros to 56 mod 64, then the bit length as a
64-bit little-endian quantity. -/
def md5Pad (msg : List Nat) : List Nat :=
  msg ++ [128] ++ List.replicate ((120 - (msg.length + 1) % 64) % 64) 0
    ++ leBytes (8 * msg.length % 18446744073709551616) 8

/-- Word `j` of a 64-byte block, little endian. -/
def blockWords (block : List Nat) (j : Nat) : Nat :=
  block.getD (4 * j) 0 + 256 * block.getD (4 * j + 1) 0 + 65536 * block.getD (4 * j + 2) 0
    + 16777216 * block.getD (4 * j + 3) 0

/-- The 16-byte MD5 digest of a byte sequence. -/
def md5Digest (msg : List Nat) : List Nat :=
  let padded := md5Pad msg
  let fin := (List.range (padded.length / 64)).foldl
    (fun h i => md5ProcessBlock h (blockWords ((padded.drop (64 * i)).take 64)))
    (1732584193, 4023233417, 2562383102, 271733878)
  leBytes fin.1 4 ++ leBytes fin.2.1 4 ++ leBytes fin.2.2.1 4 ++ leBytes fin.2.2.2 4

/-- Lowercase hex digit. -/
def hexDigit (n : Nat) : Char := if n < 10 then Char.ofNat (48 + n) else Char.ofNat (87 + n)

/-- Two lowercase hex digits of a byte. -/
def byteToHex (b : Nat) : List Char := [hexDigit (b / 16), hexDigit (b % 16)]

/-- `hashlib.md5(data).hexdigest()`. -/
def md5Hex (msg : List Nat) : String :=
  String.mk ((md5Digest msg).foldr (fun b acc => byteToHex b ++ acc) [])

/-- Standard UTF-8 encoding of one character. -/
def utf8Char (c : Char) : List Nat :=
  let n := c.toNat
  if n < 128 then [n]
  else if n < 2048 then [192 + n / 64, 128 + n % 64]
  else if n < 65536 then [224 + n / 4096, 128 + n / 64 % 64, 128 + n % 64]
  else [240 + n / 262144, 128 + n / 4096 % 64, 128 + n / 64 % 64, 128 + n % 64]

/-- Python `str.encode()`: the UTF-8 bytes of a string. -/
def utf8Encode (s : String) : List Nat := s.data.foldr (fun c acc => utf8Char c ++ acc) []

/-- A JSON scalar in a command payload body: the APIs here send either
strings or integers. -/
inductive PVal where
  | pstr : String → PVal
  | pint : Nat → PVal
deriving DecidableEq

/-- connection.py lines 66-73: the `_login` payload
`{"login": {"pwd": md5(password).hexdigest(), "timestamp": get_timestamp()}}`
with the command key and its field dict; the timestamp is sent as a raw
integer (`self.get_timestamp()`). -/
def loginPayload (password : String) (ts : Nat) : String × List (String × PVal) :=
  ("login", [("pwd", .pstr (md5Hex (utf8Encode password))), ("timestamp", .pint ts)])

/-- controller.py lines 17-25 (`set_led_status`): note the timestamp is
`str(self.connection.get_timestamp())`, a decimal string. -/
def setLedPayload (serial : String) (enabled : Bool) (ts : Nat) :
    String × List (String × PVal) :=
  ("led", [("led_en", .pstr (if enabled then "1" else "0")), ("sn", .pstr serial),
    ("timestamp", .pstr (toString ts))])

/-- controller.py lines 36-43 (`restart_router`). -/
def sysRebootPayload (ts : Nat) : String × List (String × PVal) :=
  ("sys_reboot", [("action", .pstr "reboot"), ("timestamp", .pstr (toString ts))])

/-- controller.py lines 54-70 (`set_wifi_config`). -/
def setWifiPayload (ssid pass0 securityType securityMode : String) (ts : Nat) :
    String × List (String × PVal) :=
  ("wifi", [("ssid", .pstr ssid), ("pass", .pstr pass0), ("type", .pstr securityType),
    ("security", .pstr securityMode), ("timestamp", .pstr (toString ts))])

/-- controller.py lines 81-103 (`set_guest_network`): SSID and password
are appended after the timestamp field and default to `""`. -/
def setGuestPayload (enabled : Bool) (ssid pass0 : Option String)
    (timeRestriction bandwidthLimit : String) (ts : Nat) :
    String × List (String × PVal) :=
  ("guest_info", [("guest_en", .pstr (if enabled then "1" else "0")),
    ("guest_time", .pstr timeRestriction), ("limit", .pstr bandwidthLimit),
    ("timestamp", .pstr (toString ts)), ("guest_ssid", .pstr (ssid.getD "")),
    ("guest_pass", .pstr (pass0.getD ""))])

/-- controller.py lines 115-122 (`set_upnp_status`). -/
def setUpnpPayload (enabled : Bool) (ts : Nat) : String × List (String × PVal) :=
  ("upnp_info", [("upnp_en", .pstr (if enabled then "1" else "0")),
    ("timestamp", .pstr (toString ts))])

/-- C7: the login payload is `{login: {pwd: <MD5 hex of the UTF-8
password>, timestamp: <unix ms>}}`; at password `"secret"` and timestamp
1700000000000 the `pwd` field is the MD5 hex digest of the bytes
`secret`, namely `5ebe2294ecd0e0f08eab7690d2a6ee69`. -/
theorem loginPayload_md5_and_timestamp :
    (∀ (pwd : String) (ts : Nat),
      (loginPayload pwd ts).1 = "login"
      ∧ pyLookup (loginPayload pwd ts).2 "pwd"
          = some (PVal.pstr (md5Hex (utf8Encode pwd)))
      ∧ pyLookup (loginPayload pwd ts).2 "timestamp" = some (PVal.pint ts))
    ∧ md5Hex (utf8Encode "secret") = "5ebe2294ecd0e0f08eab7690d2a6ee69"
    ∧ utf8Encode "secret" = [115, 101, 99, 114, 101, 116]
    ∧ pyLookup (loginPayload "secret" 1700000000000).2 "pwd"
        = some (PVal.pstr "5ebe2294ecd0e0f08eab7690d2a6ee69")
    ∧ pyLookup (loginPayload "secret" 1700000000000).2 "timestamp"
        = some (PVal.pint 1700000000000) :=
  ⟨fun _ _ => ⟨rfl, rfl, rfl⟩, by decide, by decide, by decide, by decide⟩

/-- C8 counterexample: `set_led_status` serializes the timestamp through
`str(...)`, so the POSTed field holds the decimal string
`"1700000000000"`, which is not an integer value. -/
theorem controllerTimestamp_counterexample :
    pyLookup (setLedPayload "SN1" true 1700000000000).2 "timestamp"
      = some (PVal.pstr "1700000000000")
    ∧ ∀ n : Nat, some (PVal.pstr "1700000000000") ≠ some (PVal.pint n) :=
  ⟨rfl, fun _ h => PVal.noConfusion (Option.some.inj h)⟩

/-- C8 (amended): the login payload's timestamp is a unix-millisecond
integer, while all five controller commands (`led`, `sys_reboot`,
`wifi`, `guest_info`, `upnp_info`) serialize the same unix-millisecond
value as its decimal string. -/
theorem commandTimestamps_amended (serial ssid pass0 stype smode tr bl : String)
    (enabled : Bool) (gssid gpass : Option String) (ts : Nat) :
    pyLookup (loginPayload pass0 ts).2 "timestamp" = some (PVal.pint ts)
    ∧ pyLookup (setLedPayload serial enabled ts).2 "timestamp"
        = some (PVal.pstr (toString ts))
    ∧ pyLookup (sysRebootPayload ts).2 "timestamp" = some (PVal.pstr (toString ts))
    ∧ pyLookup (setWifiPayload ssid pass0 stype smode ts).2 "timestamp"
        = some (PVal.pstr (toString ts))
    ∧ pyLookup (setGuestPayload enabled gssid gpass tr bl ts).2 "timestamp"
        = some (PVal.pstr (toString ts))
    ∧ pyLookup (setUpnpPayload enabled ts).2 "timestamp"
        = some (PVal.pstr (toString ts)) :=
  ⟨rfl, rfl, rfl, rfl, rfl, rfl⟩

/-! ## Single-flight login (`api/connection.py`,
`TwibiConnection.ensure_authenticated`, lines 55-63) -/

/-- The control points of one `ensure_authenticated()` caller:
`start` — about to run the line-57 fast-path check;
`waitLock` — at `async with self._auth_lock` (line 60), waiting;
`crit` — holds the lock, about to run the line-61 re-check;
`doLogin` — holds the lock, inside `await self._login()` (line 63);
`finished` — returned (the lock, if held, released). -/
inductive AuthPC where
  | start
  | waitLock
  | crit
  | doLogin
  | finished
deriving DecidableEq

/-- The shared state of one `TwibiConnection` and `n` concurrent
`ensure_authenticated()` callers: each caller's control point, the
`_authenticated` flag (starts false), the holder of `_auth_lock`, and the
number of login requests sent to the transport. -/
structure AuthSystem (n : Nat) where
  pc : Fin n → AuthPC
  authenticated : Bool
  lock : Option (Fin n)
  loginCount : Nat

/-- Interleaving semantics of `ensure_authenticated` (connection.py lines
55-63).  Any caller may move at any time; the lock is acquired only when
free.  A successful `_login()` is modelled as one atomic step that sends
one login request and sets `_authenticated = True` (connection.py line
85), then leaves the `async with` block, releasing the lock. -/
inductive AuthStep {n : Nat} : AuthSystem n → AuthSystem n → Prop where
  | fastAuthed (s : AuthSystem n) (i : Fin n) (hpc : s.pc i = AuthPC.start)
      (hauth : s.authenticated = true) :
      AuthStep s { s with pc := Function.update s.pc i AuthPC.finished }
  | fastUnauthed (s : AuthSystem n) (i : Fin n) (hpc : s.pc i = AuthPC.start)
      (hauth : s.authenticated = false) :
      AuthStep s { s with pc := Function.update s.pc i AuthPC.waitLock }
  | acquire (s : AuthSystem n) (i : Fin n) (hpc : s.pc i = AuthPC.waitLock)
      (hlock : s.lock = none) :
      AuthStep s { s with pc := Function.update s.pc i AuthPC.crit, lock := some i }
  | recheckAuthed (s : AuthSystem n) (i : Fin n) (hpc : s.pc i = AuthPC.crit)
      (hauth : s.authenticated = true) :
      AuthStep s { s with pc := Function.update s.pc i AuthPC.finished, lock := none }
  | recheckUnauthed (s : AuthSystem n) (i : Fin n) (hpc : s.pc i = AuthPC.crit)
      (hauth : s.authenticated = false) :
      AuthStep s { s with pc := Function.update s.pc i AuthPC.doLogin }
  | loginDone (s : AuthSystem n) (i : Fin n) (hpc : s.pc i = AuthPC.doLogin) :
      AuthStep s
        { s with
          pc := Function.update s.pc i AuthPC.finished
          authenticated := true
          lock := none
          loginCount := s.loginCount + 1 }

/-- The initial state: unauthenticated connection, lock free, no login
sent, every caller about to enter `ensure_authenticated`. -/
def authInit (n : Nat) : AuthSystem n where
  pc := fun _ => AuthPC.start
  authenticated := false
  lock := none
  loginCount := 0

/-- The inductive invariant: the login count tracks the flag; callers in
the critical section hold the lock (so there is at most one); a caller
inside `_login` sees the flag down; once anyone has returned, the flag is
up. -/
def AuthInv {n : Nat} (s : AuthSystem n) : Prop :=
  s.loginCount = (if s.authenticated then 1 else 0)
  ∧ (∀ i, (s.pc i = AuthPC.crit ∨ s.pc i = AuthPC.doLogin) → s.lock = some i)
  ∧ (∀ i, s.pc i = AuthPC.doLogin → s.authenticated = false)
  ∧ ((∃ i, s.pc i = AuthPC.finished) → s.authenticated = true)

theorem authInv_init (n : Nat) : AuthInv (authInit n) := by
  refine ⟨rfl, ?_, ?_, ?_⟩
  · intro i hi
    rcases hi with h | h <;> simp [authInit] at h
  · intro i h
    simp [authInit] at h
  · rintro ⟨i, h⟩
    simp [authInit] at h

theorem authInv_step {n : Nat} {s s' : AuthSystem n} (hinv : AuthInv s)
    (hstep : AuthStep s s') : AuthInv s' := by
  obtain ⟨hcount, hlock, hlogin, hdone⟩ := hinv
  cases hstep with
  | fastAuthed i hpc hauth =>
    refine ⟨hcount, ?_, ?_, fun _ => hauth⟩
    · intro j hj
      by_cases hij : j = i
      · subst hij
        simp [Function.update_same] at hj
      · simp only [Function.update_noteq hij] at hj
        exact hlock j hj
    · intro j hj
      by_cases hij : j = i
      · subst hij
        simp [Function.update_same] at hj
      · simp only [Function.update_noteq hij] at hj
        exact hlogin j hj
  | fastUnauthed i hpc hauth =>
    refine ⟨hcount, ?_, ?_, ?_⟩
    · intro j hj
      by_cases hij : j = i
      · subst hij
        simp [Function.update_same] at hj
      · simp only [Function.update_noteq hij] at hj
        exact hlock j hj
    · intro j hj
      by_cases hij : j = i
      · subst hij
        simp [Function.update_same] at hj
      · simp only [Function.update_noteq hij] at hj
        exact hlogin j hj
    · rintro ⟨j, hj⟩
      by_cases hij : j = i
      · subst hij
        simp [Function.update_same] at hj
      · simp only [Function.update_noteq hij] at hj
        exact hdone ⟨j, hj⟩
  | acquire i hpc hlk =>
    refine ⟨hcount, ?_, ?_, ?_⟩
    · intro j hj
      by_cases hij : j = i
      · subst hij
        rfl
      · simp only [Function.update_noteq hij] at hj
        rw [hlock j hj] at hlk
        exact Option.noConfusion hlk
    · intro j hj
      by_cases hij : j = i
      · subst hij
        simp [Function.update_same] at hj
      · simp only [Function.update_noteq hij] at hj
        exact hlogin j hj
    · rintro ⟨j, hj⟩
      by_cases hij : j = i
      · subst hij
        simp [Function.update_same] at hj
      · simp only [Function.update_noteq hij] at hj
        exact hdone ⟨j, hj⟩
  | recheckAuthed i hpc hauth =>
    refine ⟨hcount, ?_, ?_, fun _ => hauth⟩
    · intro j hj
      by_cases hij : j = i
      · subst hij
        simp [Function.update_same] at hj
      · simp only [Function.update_noteq hij] at hj
        have h1 := hlock j hj
        have h2 := hlock i (Or.inl hpc)
        rw [h2] at h1
        exact absurd (Option.some.inj h1).symm hij
    · intro j hj
      by_cases hij : j = i
      · subst hij
        simp [Function.update_same] at hj
      · simp only [Function.update_noteq hij] at hj
        rw [hlogin j hj] at hauth
        exact Bool.noConfusion hauth
  | recheckUnauthed i hpc hauth =>
    refine ⟨hcount, ?_, ?_, ?_⟩
    · intro j hj
      by_cases hij : j = i
      · subst hij
        exact hlock _ (Or.inl hpc)
      · simp only [Function.update_noteq hij] at hj
        exact hlock j hj
    · intro j hj
      by_cases hij : j = i
      · subst hij
        exact hauth
      · simp only [Function.update_noteq hij] at hj
        exact hlogin j hj
    · rintro ⟨j, hj⟩
      by_cases hij : j = i
      · subst hij
        simp [Function.update_same] at hj
      · simp only [Function.update_noteq hij] at hj
        exact hdone ⟨j, hj⟩
  | loginDone i hpc =>
    have hauth : s.authenticated = false := hlogin i hpc
    refine ⟨?_, ?_, ?_, fun _ => rfl⟩
    · show s.loginCount + 1 = (if (true : Bool) = true then 1 else 0)
      rw [hcount, hauth]
      rfl
    · intro j hj
      by_cases hij : j = i
      · subst hij
        simp [Function.update_same] at hj
      · simp only [Function.update_noteq hij] at hj
        have h1 := hlock j hj
        have h2 := hlock i (Or.inr hpc)
        rw [h2] at h1
        exact absurd (Option.some.inj h1).symm hij
    · intro j hj
      by_cases hij : j = i
      · subst hij
        simp [Function.update_same] at hj
      · simp only [Function.update_noteq hij] at hj
        have h1 := hlock j (Or.inr hj)
        have h2 := hlock i (Or.inr hpc)
        rw [h2] at h1
        exact absurd (Option.some.inj h1).symm hij

theorem authInv_reachable {n : Nat} {s : AuthSystem n}
    (hreach : Relation.ReflTransGen AuthStep (authInit n) s) : AuthInv s := by
  induction hreach with
  | refl => exact authInv_init n
  | tail _ hbc ih => exact authInv_step ih hbc

/-- C9: from the initial unauthenticated state, whatever interleaving the
`n ≥ 1` concurrent `ensure_authenticated()` callers take, once all have
returned exactly one login request has been sent. -/
theorem ensureAuthenticated_single_flight (n : Nat) (s : AuthSystem n)
    (hn : 1 ≤ n)
    (hreach : Relation.ReflTransGen AuthStep (authInit n) s)
    (hdone : ∀ i, s.pc i = AuthPC.finished) :
    s.loginCount = 1 := by
  have hinv : AuthInv s := authInv_reachable hreach
  have hfin : s.authenticated = true := hinv.2.2.2 ⟨⟨0, hn⟩, hdone ⟨0, hn⟩⟩
  rw [hinv.1, hfin]
  rfl

/-- Witness for `ensureAuthenticated_single_flight`: the canonical
execution of a single caller. -/
theorem ensureAuthenticated_single_flight_witness :
    ∃ s : AuthSystem 1, Relation.ReflTransGen AuthStep (authInit 1) s
      ∧ (∀ i, s.pc i = AuthPC.finished) ∧ s.loginCount = 1 := by
  have hchain := Relation.ReflTransGen.head (AuthStep.fastUnauthed (authInit 1) 0 rfl rfl)
    (Relation.ReflTransGen.head (AuthStep.acquire _ 0 (by decide) rfl)
      (Relation.ReflTransGen.head (AuthStep.recheckUnauthed _ 0 (by decide) rfl)
        (Relation.ReflTransGen.head (AuthStep.loginDone _ 0 (by decide))
          Relation.ReflTransGen.refl)))
  exact ⟨_, hchain, by decide,
    ensureAuthenticated_single_flight 1 _ (by omega) hchain (by decide)⟩

/-! ## Error taxonomy (`api/connection.py`, lines 149-158) -/

/-- The exception classes of the API package —
`class APIError(Exception)`, `class AuthenticationError(APIError)`,
`class ConnectionError(APIError)` (connection.py lines 149-158) — plus
Python's base `Exception`. -/
inductive ExcClass where
  | exc
  | apiError
  | authenticationError
  | connectionError
deriving DecidableEq

/-- The direct base class of each class, as declared in connection.py
lines 149-158 (`Exception`'s own bases are not modelled). -/
def excBase : ExcClass → Option ExcClass
  | .exc => none
  | .apiError => some .exc
  | .authenticationError => some .apiError
  | .connectionError => some .apiError

/-- A class together with its (at most two) transitive bases: the
ancestry consulted by `except` clauses and `isinstance`. -/
def excAncestry (e : ExcClass) : List ExcClass :=
  e :: ((excBase e).toList ++ ((excBase e).bind excBase).toList)

/-- Python's `except H:` catches a raised instance of `e` iff `H` is `e`
itself or one of its base classes. -/
def excCaught (raised handler : ExcClass) : Bool :=
  (excAncestry raised).contains handler

/-- C10: `AuthenticationError` and `ConnectionError` are proper
subclasses of `APIError`, so a handler (or classifier) matching
`APIError` also matches authentication and connection failures — the
three kinds are not disjoint. -/
theorem apiError_handler_catches_subclasses :
    excBase ExcClass.authenticationError = some ExcClass.apiError
    ∧ excBase ExcClass.connectionError = some ExcClass.apiError
    ∧ ExcClass.authenticationError ≠ ExcClass.apiError
    ∧ ExcClass.connectionError ≠ ExcClass.apiError
    ∧ excCaught ExcClass.authenticationError ExcClass.apiError = true
    ∧ excCaught ExcClass.connectionError ExcClass.apiError = true
    ∧ excCaught ExcClass.apiError ExcClass.apiError = true
    ∧ (∀ e, excCaught e ExcClass.exc = true) := by
  refine ⟨rfl, rfl, by decide, by decide, rfl, rfl, rfl, ?_⟩
  intro e
  cases e <;> rfl
